import Mathlib

/-!
# Verification of the RatoNet control plane core

A shallow embedding, in Lean 4, of the components of the RatoNet
repository that its specification talks about:

* `PortAllocator`, `SRTLink`, `SRTLAReceiver` (ratonet/server/srt_receiver.py)
* `HealthMonitor` (ratonet/server/health.py)
* `OBSController` (ratonet/server/obs_controller.py)
* `RTMPRelay` (ratonet/server/relay.py)
* `ConnectionManager` and the field/dashboard WebSocket handlers
  (ratonet/dashboard/ws_handler.py, ratonet/dashboard/main.py)
* the RTMP-URL masking helpers (ratonet/server/relay.py,
  ratonet/dashboard/routes.py)

Python `dict` values are modelled as association lists, Python `str`
as `List Char` where character-level operations matter and as `String`
where the value is opaque, Python numbers as `ℚ` (`int` counters as
`Nat`/`Int`), and wall-clock instants as `ℚ` parameters.  A coroutine
raising an exception is modelled by an explicit `raised` flag in the
result of the embedded handler.
-/

namespace RatoNet

/-! ## Association-list model of Python dicts -/

/-- `d.get(k)` / `d[k]` lookup on a Python dict, modelled as the first
matching entry of an association list. -/
def dictLookup {β : Type} (l : List (String × β)) (k : String) : Option β :=
  match l with
  | [] => none
  | e :: rest => if e.1 = k then some e.2 else dictLookup rest k

/-- `d.pop(k, None)`: remove the entry with key `k`. -/
def dictPop {β : Type} (l : List (String × β)) (k : String) : List (String × β) :=
  l.filter (fun e => e.1 ≠ k)

/-- In-place replacement of the value stored under an existing key `k`
(the effect of mutating the object found by `d.get(k)`). -/
def dictSet {β : Type} (l : List (String × β)) (k : String) (v : β) :
    List (String × β) :=
  l.map (fun e => if e.1 = k then (k, v) else e)

/-- `d[k] = v` on a Python dict: replace if present, append otherwise. -/
def dictAssign {β : Type} (l : List (String × β)) (k : String) (v : β) :
    List (String × β) :=
  if (dictLookup l k).isSome then dictSet l k v else l ++ [(k, v)]

theorem dictLookup_eq_none {β : Type} {l : List (String × β)} {k : String} :
    dictLookup l k = none ↔ ∀ e ∈ l, e.1 ≠ k := by
  induction l with
  | nil => simp [dictLookup]
  | cons e rest ih =>
    by_cases h : e.1 = k <;> simp [dictLookup, h, ih]

theorem dictLookup_mem {β : Type} {l : List (String × β)} {k : String} {v : β}
    (h : dictLookup l k = some v) : (k, v) ∈ l := by
  induction l with
  | nil => simp [dictLookup] at h
  | cons e rest ih =>
    obtain ⟨a, b⟩ := e
    by_cases he : a = k
    · simp [dictLookup, he] at h
      simp [he, h]
    · simp [dictLookup, he] at h
      exact List.mem_cons_of_mem _ (ih h)

theorem dictLookup_dictPop_self {β : Type} (l : List (String × β)) (k : String) :
    dictLookup (dictPop l k) k = none := by
  induction l with
  | nil => simp [dictPop, dictLookup]
  | cons e rest ih =>
    by_cases h : e.1 = k <;> simp [dictPop, dictLookup, h] at ih ⊢ <;>
      simpa [dictPop, h] using ih

/-! ## Port Allocator (ratonet/server/srt_receiver.py, `PortAllocator`) -/

/-- State of the SRT port allocator.  `allocations` maps a streamer id
to its allocated base port; `next_slot` is the monotone slot counter of
the source (`self._next_slot`). -/
structure PortAllocator where
  base_port : Nat
  ports_per_streamer : Nat
  allocations : List (String × Nat)
  next_slot : Nat
deriving DecidableEq, Repr

/-- `PortAllocator.__init__`. -/
def PortAllocator.init (base pps : Nat) : PortAllocator :=
  ⟨base, pps, [], 0⟩

/-- `PortAllocator.allocate`: return the existing assignment if one
exists, else assign `base_port + next_slot * ports_per_streamer` and
bump the slot counter. -/
def PortAllocator.allocate (a : PortAllocator) (sid : String) :
    Nat × PortAllocator :=
  match dictLookup a.allocations sid with
  | some p => (p, a)
  | none =>
      let port := a.base_port + a.next_slot * a.ports_per_streamer
      (port,
        { a with
          allocations := (sid, port) :: a.allocations
          next_slot := a.next_slot + 1 })

/-- `PortAllocator.release`: drop the assignment of `sid` (the slot
counter is left untouched by the source). -/
def PortAllocator.release (a : PortAllocator) (sid : String) : PortAllocator :=
  { a with allocations := dictPop a.allocations sid }

/-- `PortAllocator.get_port`. -/
def PortAllocator.get_port (a : PortAllocator) (sid : String) : Option Nat :=
  dictLookup a.allocations sid

/-- Allocator states reachable from `init` by `allocate`/`release`. -/
inductive PortAllocator.Reachable (base pps : Nat) : PortAllocator → Prop
  | init : PortAllocator.Reachable base pps (PortAllocator.init base pps)
  | allocate (sid : String) {a : PortAllocator} :
      PortAllocator.Reachable base pps a →
      PortAllocator.Reachable base pps (a.allocate sid).2
  | release (sid : String) {a : PortAllocator} :
      PortAllocator.Reachable base pps a →
      PortAllocator.Reachable base pps (a.release sid)

/-- The slot the specification's words predict for a fresh allocation:
the lowest `k` such that no current assignment starts at
`base_port + k * ports_per_streamer`.  (Spec-side definition, used only
to compare the spec's description with the source's behaviour.) -/
def PortAllocator.lowestFreeSlot (a : PortAllocator) : Nat :=
  ((List.range (a.allocations.length + 1)).filter
    (fun k => (a.allocations.all
      (fun e => e.2 ≠ a.base_port + k * a.ports_per_streamer)))).headD 0

/-- Inductive invariant: every assigned port is an exact slot start
below `next_slot`, ids are pairwise distinct, and assigned ranges are
pairwise separated by at least `ports_per_streamer`. -/
def PortAllocator.Inv (a : PortAllocator) : Prop :=
  (∀ e ∈ a.allocations,
      ∃ k, k < a.next_slot ∧ e.2 = a.base_port + k * a.ports_per_streamer)
  ∧ a.allocations.Pairwise (fun e1 e2 =>
      e1.1 ≠ e2.1 ∧
        (e1.2 + a.ports_per_streamer ≤ e2.2 ∨ e2.2 + a.ports_per_streamer ≤ e1.2))

theorem slot_starts_separated {b w j k : Nat} (h : j ≠ k) :
    (b + j * w) + w ≤ b + k * w ∨ (b + k * w) + w ≤ b + j * w := by
  rcases Nat.lt_or_ge j k with hlt | hge
  · left
    have : (j + 1) * w ≤ k * w := Nat.mul_le_mul_right w hlt
    calc (b + j * w) + w = b + (j + 1) * w := by ring
    _ ≤ b + k * w := by omega
  · right
    have hkj : k < j := lt_of_le_of_ne hge (Ne.symm h)
    have : (k + 1) * w ≤ j * w := Nat.mul_le_mul_right w hkj
    calc (b + k * w) + w = b + (k + 1) * w := by ring
    _ ≤ b + j * w := by omega

theorem PortAllocator.inv_init (base pps : Nat) :
    (PortAllocator.init base pps).Inv := by
  constructor <;> simp [PortAllocator.init]

theorem PortAllocator.inv_allocate (a : PortAllocator) (sid : String)
    (h : a.Inv) : (a.allocate sid).2.Inv := by
  obtain ⟨hslots, hpair⟩ := h
  unfold PortAllocator.allocate
  cases hl : dictLookup a.allocations sid with
  | some p => exact ⟨hslots, hpair⟩
  | none =>
    refine ⟨?_, ?_⟩
    · intro e he
      rcases List.mem_cons.1 he with rfl | hmem
      · exact ⟨a.next_slot, Nat.lt_succ_self _, rfl⟩
      · obtain ⟨k, hk, hke⟩ := hslots e hmem
        exact ⟨k, Nat.lt_succ_of_lt hk, hke⟩
    · refine List.Pairwise.cons ?_ hpair
      intro e he
      refine ⟨fun hid => (dictLookup_eq_none.1 hl) e he hid.symm, ?_⟩
      obtain ⟨k, hk, hke⟩ := hslots e he
      rw [hke]
      exact slot_starts_separated (Nat.ne_of_gt hk)

theorem PortAllocator.inv_release (a : PortAllocator) (sid : String)
    (h : a.Inv) : (a.release sid).Inv := by
  obtain ⟨hslots, hpair⟩ := h
  refine ⟨?_, ?_⟩
  · intro e he
    exact hslots e (List.mem_of_mem_filter he)
  · exact hpair.sublist (List.filter_sublist _)

theorem PortAllocator.inv_of_reachable {base pps : Nat} {a : PortAllocator}
    (h : PortAllocator.Reachable base pps a) : a.Inv := by
  induction h with
  | init => exact PortAllocator.inv_init base pps
  | allocate sid _ ih => exact PortAllocator.inv_allocate _ sid ih
  | release sid _ ih => exact PortAllocator.inv_release _ sid ih

/-- The allocator `init 9000 4` after `allocate "a"` (port 9000) and
`allocate "b"` (port 9004). -/
def portAllocatorStateAB : PortAllocator :=
  (((PortAllocator.init 9000 4).allocate "a").2.allocate "b").2

/-- `portAllocatorStateAB` after `release "a"`: only `"b"` remains
assigned, and slot 0 (ports 9000-9003) is free. -/
def portAllocatorStateAB_releasedA : PortAllocator :=
  portAllocatorStateAB.release "a"

/-- C3 counterexample: after allocating `"a"` (port 9000) and `"b"`
(port 9004) and releasing `"a"`, slot 0 is the lowest unassigned slot,
yet `allocate "c"` returns 9008, not `base_port + 0 * 4 = 9000`: a slot
freed by `release` is not reused, refuting the claim's "lowest
non-negative integer whose range is not currently assigned". -/
theorem portAllocator_freed_slot_not_reused :
    (portAllocatorStateAB_releasedA.allocate "c").1 = 9008
    ∧ portAllocatorStateAB_releasedA.lowestFreeSlot = 0
    ∧ (portAllocatorStateAB_releasedA.allocate "c").1 ≠ 9000 + 0 * 4 := by
  decide

/-- C3 (amended): `allocate` is idempotent under identity — an already
assigned id gets its existing port back with the state unchanged — and
a fresh id gets `base_port + next_slot * ports_per_streamer`, where the
slot counter is monotone, so (for a positive block width) the fresh
port is strictly beyond every port currently assigned; released slots
are never reused. -/
theorem portAllocator_allocate_spec (base pps : Nat) (a : PortAllocator)
    (h : PortAllocator.Reachable base pps a) (sid : String) :
    (∀ p, a.get_port sid = some p → a.allocate sid = (p, a))
    ∧ (a.get_port sid = none →
        (a.allocate sid).1 = a.base_port + a.next_slot * a.ports_per_streamer
        ∧ (0 < a.ports_per_streamer →
            ∀ e ∈ a.allocations, e.2 < (a.allocate sid).1)) := by
  obtain ⟨hslots, -⟩ := PortAllocator.inv_of_reachable h
  constructor
  · intro p hp
    unfold PortAllocator.allocate
    rw [show dictLookup a.allocations sid = some p from hp]
  · intro hnone
    have hfst : (a.allocate sid).1 =
        a.base_port + a.next_slot * a.ports_per_streamer := by
      unfold PortAllocator.allocate
      rw [show dictLookup a.allocations sid = none from hnone]
    refine ⟨hfst, fun hpos e he => ?_⟩
    obtain ⟨k, hk, hke⟩ := hslots e he
    rw [hfst, hke]
    have : k * a.ports_per_streamer < a.next_slot * a.ports_per_streamer :=
      Nat.mul_lt_mul_of_lt_of_le hk (Nat.le_refl _) hpos
    omega

/-- Witness for the C3 theorem: in the reachable state where `"a"` owns
port 9000 and `"b"` owns 9004, allocating `"a"` again returns 9000 with
the allocator unchanged, and `"c"` (unassigned) gets 9008, beyond both
assigned ports. -/
theorem portAllocator_allocate_spec_witness :
    portAllocatorStateAB.allocate "a" = (9000, portAllocatorStateAB)
    ∧ ((portAllocatorStateAB.allocate "c").1 =
          portAllocatorStateAB.base_port +
            portAllocatorStateAB.next_slot * portAllocatorStateAB.ports_per_streamer
        ∧ (0 < portAllocatorStateAB.ports_per_streamer →
            ∀ e ∈ portAllocatorStateAB.allocations,
              e.2 < (portAllocatorStateAB.allocate "c").1)) := by
  have hreach : PortAllocator.Reachable 9000 4 portAllocatorStateAB :=
    PortAllocator.Reachable.allocate "b"
      (PortAllocator.Reachable.allocate "a" (PortAllocator.Reachable.init))
  have h1 := (portAllocator_allocate_spec 9000 4 _ hreach "a").1 9000 (by decide)
  have h2 := (portAllocator_allocate_spec 9000 4 _ hreach "c").2 (by decide)
  exact ⟨h1, h2⟩

/-- C4: in every allocator state reachable by allocate/release calls,
the port ranges of two distinct assigned streamer ids are disjoint
(each block of `ports_per_streamer` ports ends before the other
begins). -/
theorem portAllocator_ranges_disjoint (base pps : Nat) (a : PortAllocator)
    (h : PortAllocator.Reachable base pps a) (s1 s2 : String) (p1 p2 : Nat)
    (hne : s1 ≠ s2) (h1 : a.get_port s1 = some p1)
    (h2 : a.get_port s2 = some p2) :
    p1 + a.ports_per_streamer ≤ p2 ∨ p2 + a.ports_per_streamer ≤ p1 := by
  obtain ⟨-, hpair⟩ := PortAllocator.inv_of_reachable h
  have m1 : (s1, p1) ∈ a.allocations := dictLookup_mem h1
  have m2 : (s2, p2) ∈ a.allocations := dictLookup_mem h2
  have hsym : Symmetric (fun (e1 e2 : String × Nat) => e1.1 ≠ e2.1 ∧
      (e1.2 + a.ports_per_streamer ≤ e2.2 ∨
        e2.2 + a.ports_per_streamer ≤ e1.2)) := by
    intro x y hxy
    exact ⟨hxy.1.symm, hxy.2.symm⟩
  have hne2 : (s1, p1) ≠ (s2, p2) := by
    intro hc
    exact hne (congrArg Prod.fst hc)
  exact (List.Pairwise.forall hsym hpair m1 m2 hne2).2

/-- Witness for the C4 theorem: with `"a"` on 9000 and `"b"` on 9004 in
a reachable state of the allocator `init 9000 4`, the two 4-port ranges
are disjoint. -/
theorem portAllocator_ranges_disjoint_witness :
    9000 + portAllocatorStateAB.ports_per_streamer ≤ 9004
    ∨ 9004 + portAllocatorStateAB.ports_per_streamer ≤ 9000 := by
  have hreach : PortAllocator.Reachable 9000 4 portAllocatorStateAB :=
    PortAllocator.Reachable.allocate "b"
      (PortAllocator.Reachable.allocate "a" (PortAllocator.Reachable.init))
  exact portAllocator_ranges_disjoint 9000 4 _ hreach "a" "b" 9000 9004
    (by decide) (by decide) (by decide)

/-! ## SRT link scoring (ratonet/server/srt_receiver.py, `SRTLink`) -/

/-- Statistics record of one SRT link receiver. -/
structure SRTLink where
  port : Nat
  link_id : Nat
  active : Bool
  last_seen : ℚ
  bitrate_kbps : ℚ
  rtt_ms : ℚ
  packet_loss_pct : ℚ
  score : Int
deriving DecidableEq, Repr

/-- `SRTLink.__init__ port link_id`. -/
def SRTLink.init (port link_id : Nat) : SRTLink :=
  ⟨port, link_id, false, 0, 0, 0, 0, 0⟩

/-- `SRTLink.calculate_score`, with `time.time()` passed in as `now`.
Returns the updated link record together with the returned score: the
two early-return paths hand back `0` without touching the stored
`score` field; only the main path writes it. -/
def SRTLink.calculate_score (l : SRTLink) (now : ℚ) : SRTLink × Int :=
  if l.active = false then (l, 0)
  else
    let score : Int := 100
    let staleness := now - l.last_seen
    if 10 < staleness then (l, 0)
    else
      let score := if 5 < staleness then score - 30 else score
      let score :=
        if 200 < l.rtt_ms then score - 30
        else if 100 < l.rtt_ms then score - 15 else score
      let score :=
        if 5 < l.packet_loss_pct then score - 30
        else if 1 < l.packet_loss_pct then score - 10 else score
      let s := max 0 (min 100 score)
      ({ l with score := s }, s)

/-- The `score` entry that `SRTReceiver.get_status` reports for a link:
the stored field, not a recomputation. -/
def SRTLink.statusScore (l : SRTLink) : Int := l.score

/-- C10: `calculate_score` leaves the whole link record — in particular
the stored `score` that `get_status` reports — unchanged on both
early-return paths (inactive link, or staleness above 10 s), returning
0 there; it writes the stored score, to a value in [0, 100], exactly on
the path where the link is active and staleness is at most 10 s. -/
theorem srtLink_calculate_score_frame (l : SRTLink) (now : ℚ) :
    (l.active = false → l.calculate_score now = (l, 0))
    ∧ (l.active = true → 10 < now - l.last_seen →
        l.calculate_score now = (l, 0))
    ∧ (l.active = true → now - l.last_seen ≤ 10 →
        (l.calculate_score now).1 =
            { l with score := (l.calculate_score now).2 }
          ∧ 0 ≤ (l.calculate_score now).2
          ∧ (l.calculate_score now).2 ≤ 100
          ∧ ((l.calculate_score now).1).statusScore =
              (l.calculate_score now).2) := by
  refine ⟨fun h => ?_, fun h hs => ?_, fun h hs => ?_⟩
  · simp [SRTLink.calculate_score, h]
  · simp [SRTLink.calculate_score, h, hs]
  · have hmain : l.calculate_score now =
        (let score : Int := 100
         let staleness := now - l.last_seen
         let score := if 5 < staleness then score - 30 else score
         let score :=
           if 200 < l.rtt_ms then score - 30
           else if 100 < l.rtt_ms then score - 15 else score
         let score :=
           if 5 < l.packet_loss_pct then score - 30
           else if 1 < l.packet_loss_pct then score - 10 else score
         let s := max 0 (min 100 score)
         ({ l with score := s }, s)) := by
      simp [SRTLink.calculate_score, h, not_lt.2 hs]
    rw [hmain]
    refine ⟨rfl, le_max_left 0 _, max_le (by norm_num) (min_le_left 100 _), rfl⟩

/-- Witness for the C10 theorem: an inactive link whose stored score is
85 keeps reporting 85 through `get_status` although `calculate_score`
returns 0. -/
theorem srtLink_calculate_score_frame_witness :
    (SRTLink.mk 9000 0 false 0 0 0 0 85).calculate_score 0
      = (SRTLink.mk 9000 0 false 0 0 0 0 85, 0)
    ∧ (SRTLink.mk 9000 0 false 0 0 0 0 85).statusScore = 85 :=
  ⟨(srtLink_calculate_score_frame (SRTLink.mk 9000 0 false 0 0 0 0 85) 0).1 rfl,
    rfl⟩

/-! ## Health state machine (ratonet/server/health.py) -/

/-- `StreamState` enum. -/
inductive StreamState
  | healthy
  | degraded
  | critical
  | down
deriving DecidableEq, Repr

/-- Inputs consumed by one `update_metrics` call. -/
structure HealthMetrics where
  active_links : Nat
  total_links : Nat
  bitrate_kbps : ℚ
  rtt_avg_ms : ℚ
  packet_loss_avg : ℚ
  link_scores : List Int
deriving DecidableEq, Repr

/-- `HealthMonitor._calculate_score`.  `staleness` stands for
`time.time() - self.last_update`; `update_metrics` sets `last_update`
to the current time immediately before calling this, so it passes 0. -/
def healthCalculateScore (mt : HealthMetrics) (staleness : ℚ) : Nat :=
  if mt.active_links = 0 then 0
  else
    let score : Int := 100
    let score :=
      if 0 < mt.total_links then
        let ratio : ℚ := (mt.active_links : ℚ) / (mt.total_links : ℚ)
        if ratio < 1/2 then score - 30
        else if ratio < 1 then score - 10 else score
      else score
    let score :=
      if mt.bitrate_kbps < 1000 then score - 30
      else if mt.bitrate_kbps < 2000 then score - 15 else score
    let score :=
      if 200 < mt.rtt_avg_ms then score - 20
      else if 100 < mt.rtt_avg_ms then score - 10 else score
    let score :=
      if 5 < mt.packet_loss_avg then score - 25
      else if 1 < mt.packet_loss_avg then score - 10 else score
    let score :=
      match mt.link_scores with
      | [] => score
      | s0 :: rest => if rest.foldl max s0 < 50 then score - 15 else score
    let score :=
      if 10 < staleness then score - 30
      else if 5 < staleness then score - 15 else score
    (max 0 (min 100 score)).toNat

/-- Mutable state of a `HealthMonitor` (the check-interval and the
state-change callback play no part in the claims and are omitted). -/
structure HealthMonitor where
  streamer_id : String
  threshold_degraded : Nat
  threshold_critical : Nat
  threshold_down : Nat
  state : StreamState
  score : Nat
  score_history : List Nat
deriving DecidableEq, Repr

/-- `HealthMonitor.__init__`: empty history, score 0, state DOWN. -/
def HealthMonitor.init (sid : String) (tdeg tc td : Nat) : HealthMonitor :=
  ⟨sid, tdeg, tc, td, StreamState.down, 0, []⟩

/-- `HealthMonitor._evaluate_state`. -/
def HealthMonitor.evaluate_state (m : HealthMonitor) (score : Nat) :
    StreamState :=
  if score ≤ m.threshold_down then StreamState.down
  else if score ≤ m.threshold_critical then StreamState.critical
  else if score ≤ m.threshold_degraded then StreamState.degraded
  else StreamState.healthy

/-- `HealthMonitor.update_metrics`: compute the raw score, slide the
5-entry history window (`pop(0)` when it overflows), store the integer
mean as the reported score, and re-evaluate the state from it. -/
def HealthMonitor.update_metrics (m : HealthMonitor) (mt : HealthMetrics) :
    HealthMonitor :=
  let raw := healthCalculateScore mt 0
  let hist0 := m.score_history ++ [raw]
  let hist := if 5 < hist0.length then hist0.drop 1 else hist0
  let smoothed := hist.sum / hist.length
  { m with
    score := smoothed
    score_history := hist
    state := m.evaluate_state smoothed }

theorem HealthMonitor.evaluate_state_bands (m : HealthMonitor) (s : Nat)
    (h1 : m.threshold_down ≤ m.threshold_critical)
    (h2 : m.threshold_critical ≤ m.threshold_degraded) :
    (m.evaluate_state s = StreamState.down ↔ s ≤ m.threshold_down)
    ∧ (m.evaluate_state s = StreamState.critical ↔
        m.threshold_down < s ∧ s ≤ m.threshold_critical)
    ∧ (m.evaluate_state s = StreamState.degraded ↔
        m.threshold_critical < s ∧ s ≤ m.threshold_degraded)
    ∧ (m.evaluate_state s = StreamState.healthy ↔
        m.threshold_degraded < s) := by
  unfold HealthMonitor.evaluate_state
  split_ifs with ha hb hc <;> refine ⟨?_, ?_, ?_, ?_⟩ <;> simp <;> omega

/-- C5: a fresh monitor starts in state DOWN, and after any
`update_metrics` call on a monitor whose thresholds are ordered and
whose history respects the 5-entry bound, the stored history is the
window of (at most) the last 5 raw scores, the reported score is its
integer mean, and the state sits exactly in the band that the smoothed
score selects: DOWN iff `score ≤ threshold_down`, CRITICAL iff
`threshold_down < score ≤ threshold_critical`, DEGRADED iff
`threshold_critical < score ≤ threshold_degraded`, HEALTHY otherwise. -/
theorem healthMonitor_state_bands (sid : String) (td tc tdeg : Nat)
    (m : HealthMonitor) (mt : HealthMetrics)
    (h1 : m.threshold_down ≤ m.threshold_critical)
    (h2 : m.threshold_critical ≤ m.threshold_degraded)
    (hlen : m.score_history.length ≤ 5) :
    (HealthMonitor.init sid tdeg tc td).state = StreamState.down
    ∧ (m.update_metrics mt).score_history =
        (m.score_history ++ [healthCalculateScore mt 0]).drop
          (m.score_history.length + 1 - 5)
    ∧ (m.update_metrics mt).score =
        ((m.update_metrics mt).score_history).sum /
          ((m.update_metrics mt).score_history).length
    ∧ ((m.update_metrics mt).state = StreamState.down ↔
        (m.update_metrics mt).score ≤ m.threshold_down)
    ∧ ((m.update_metrics mt).state = StreamState.critical ↔
        m.threshold_down < (m.update_metrics mt).score ∧
          (m.update_metrics mt).score ≤ m.threshold_critical)
    ∧ ((m.update_metrics mt).state = StreamState.degraded ↔
        m.threshold_critical < (m.update_metrics mt).score ∧
          (m.update_metrics mt).score ≤ m.threshold_degraded)
    ∧ ((m.update_metrics mt).state = StreamState.healthy ↔
        m.threshold_degraded < (m.update_metrics mt).score) := by
  have hbands := HealthMonitor.evaluate_state_bands m
    (((if 5 < (m.score_history ++ [healthCalculateScore mt 0]).length
        then (m.score_history ++ [healthCalculateScore mt 0]).drop 1
        else m.score_history ++ [healthCalculateScore mt 0])).sum /
      ((if 5 < (m.score_history ++ [healthCalculateScore mt 0]).length
        then (m.score_history ++ [healthCalculateScore mt 0]).drop 1
        else m.score_history ++ [healthCalculateScore mt 0])).length)
    h1 h2
  refine ⟨rfl, ?_, rfl, hbands.1, hbands.2.1, hbands.2.2.1, hbands.2.2.2⟩
  show (if 5 < (m.score_history ++ [healthCalculateScore mt 0]).length
      then (m.score_history ++ [healthCalculateScore mt 0]).drop 1
      else m.score_history ++ [healthCalculateScore mt 0]) =
    (m.score_history ++ [healthCalculateScore mt 0]).drop
      (m.score_history.length + 1 - 5)
  rcases Nat.lt_or_ge m.score_history.length 5 with hlt | hge
  · rw [if_neg (by simp; omega), show m.score_history.length + 1 - 5 = 0 by omega]
    simp
  · have h5 : m.score_history.length = 5 := le_antisymm hlen hge
    rw [if_pos (by simp [h5]), show m.score_history.length + 1 - 5 = 1 by omega]

/-- Concrete metrics for the C5 witness: one active link, healthy
bitrate, low latency and loss (`total_links = 0` keeps the witness in
the branch without the link-ratio division). -/
def healthDemoMetrics : HealthMetrics :=
  ⟨1, 0, 4000, 50, 0, [90, 80]⟩

/-- Witness for the C5 theorem: a fresh monitor with the default
thresholds (70/40/10) updated with good metrics lands in HEALTHY. -/
theorem healthMonitor_state_bands_witness :
    ((HealthMonitor.init "s1" 70 40 10).update_metrics
        healthDemoMetrics).state = StreamState.healthy :=
  ((healthMonitor_state_bands "s1" 10 40 70 (HealthMonitor.init "s1" 70 40 10)
      healthDemoMetrics (by decide) (by decide)
      (by decide)).2.2.2.2.2.2).mpr (by decide)

/-! ## OBS actuator (ratonet/server/obs_controller.py) -/

/-- State of the `OBSController`.  The two `asyncio` debounce tasks are
modelled by optional absolute deadlines; a pending task whose deadline
has not been reached can still be cancelled (set to `none`) without any
scene change, exactly like `Task.cancel` on a task still inside
`asyncio.sleep`. -/
structure OBSController where
  scene_live : String
  scene_brb : String
  fallback_delay : ℚ
  recovery_delay : ℚ
  connected : Bool
  current_scene : String
  in_fallback : Bool
  fallback_deadline : Option ℚ
  recovery_deadline : Option ℚ
deriving DecidableEq, Repr

/-- Fire any debounce task whose deadline has been reached by `now`
(the bodies of `_delayed_fallback` / `_delayed_recovery` after their
sleep: switch scene only when still connected, then clear the timer
slot in the `finally` block). -/
def OBSController.advanceTo (c : OBSController) (now : ℚ) : OBSController :=
  let c1 :=
    match c.fallback_deadline with
    | some d =>
        if d ≤ now then
          if c.connected then
            { c with
              current_scene := c.scene_brb
              in_fallback := true
              fallback_deadline := none }
          else { c with fallback_deadline := none }
        else c
    | none => c
  match c1.recovery_deadline with
  | some d =>
      if d ≤ now then
        if c1.connected then
          { c1 with
            current_scene := c1.scene_live
            in_fallback := false
            recovery_deadline := none }
        else { c1 with recovery_deadline := none }
      else c1
  | none => c1

/-- `OBSController.on_state_change` at instant `now`: into
CRITICAL/DOWN, cancel a pending recovery and (unless already in
fallback or already pending) arm the fallback timer; into
HEALTHY/DEGRADED, cancel a pending fallback and (when in fallback with
no recovery pending) arm the recovery timer.  A disconnected controller
returns immediately. -/
def OBSController.on_state_change (c : OBSController) (now : ℚ)
    (new_state : StreamState) : OBSController :=
  if c.connected = false then c
  else if new_state = StreamState.critical ∨ new_state = StreamState.down then
    let c1 := { c with recovery_deadline := none }
    if c1.in_fallback = false ∧ c1.fallback_deadline = none then
      { c1 with fallback_deadline := some (now + c1.fallback_delay) }
    else c1
  else
    let c1 := { c with fallback_deadline := none }
    if c1.in_fallback = true ∧ c1.recovery_deadline = none then
      { c1 with recovery_deadline := some (now + c1.recovery_delay) }
    else c1

/-- One observed transition delivered to the actuator at instant `t`:
any due debounce task runs first, then the handler. -/
def OBSController.step (c : OBSController) (t : ℚ) (s : StreamState) :
    OBSController :=
  (c.advanceTo t).on_state_change t s

/-- C6: an actuator that is not in fallback and has no pending timers,
hit by a transition into {CRITICAL, DOWN} at `t1` and then by a
transition into {HEALTHY, DEGRADED} at `t2` before the fallback delay
has elapsed, ends with the fallback timer cancelled, `in_fallback`
still false, and the scene untouched (in particular never switched to
the BRB scene). -/
theorem obs_fallback_cancelled_within_delay (c : OBSController)
    (t1 t2 : ℚ) (s1 s2 : StreamState)
    (hf : c.in_fallback = false)
    (hfd : c.fallback_deadline = none)
    (hrd : c.recovery_deadline = none)
    (hs1 : s1 = StreamState.critical ∨ s1 = StreamState.down)
    (hs2 : s2 = StreamState.healthy ∨ s2 = StreamState.degraded)
    (_ht : t1 ≤ t2)
    (ht2 : t2 < t1 + c.fallback_delay) :
    ((c.step t1 s1).step t2 s2).fallback_deadline = none
    ∧ ((c.step t1 s1).step t2 s2).in_fallback = false
    ∧ ((c.step t1 s1).step t2 s2).current_scene = c.current_scene := by
  have hns2c : ¬(s2 = StreamState.critical ∨ s2 = StreamState.down) := by
    rcases hs2 with rfl | rfl <;> simp
  cases hconn : c.connected with
  | false =>
    have hstep1 : c.step t1 s1 = c := by
      simp [OBSController.step, OBSController.advanceTo, hfd, hrd,
        OBSController.on_state_change, hconn]
    rw [hstep1]
    have hstep2 : c.step t2 s2 = c := by
      simp [OBSController.step, OBSController.advanceTo, hfd, hrd,
        OBSController.on_state_change, hconn]
    rw [hstep2]
    exact ⟨hfd, hf, rfl⟩
  | true =>
    have hs1c : (s1 = StreamState.critical ∨ s1 = StreamState.down) = True := by
      simp [hs1]
    have hstep1 : c.step t1 s1 =
        { c with
          recovery_deadline := none
          fallback_deadline := some (t1 + c.fallback_delay) } := by
      simp [OBSController.step, OBSController.advanceTo, hfd, hrd,
        OBSController.on_state_change, hconn, hs1c, hf]
    rw [hstep1]
    have hnotdue : ¬(t1 + c.fallback_delay ≤ t2) := not_le.2 ht2
    have hstep2 :
        OBSController.step
          { c with
            recovery_deadline := none
            fallback_deadline := some (t1 + c.fallback_delay) } t2 s2 =
        { c with recovery_deadline := none, fallback_deadline := none } := by
      simp [OBSController.step, OBSController.advanceTo, hnotdue,
        OBSController.on_state_change, hconn, hns2c, hf]
    rw [hstep2]
    exact ⟨rfl, hf, rfl⟩

/-- A freshly constructed, connected controller showing the LIVE scene
(default scene names and delays from the source). -/
def obsDemoController : OBSController :=
  ⟨"LIVE", "BRB", 3, 5, true, "LIVE", false, none, none⟩

/-- Witness for the C6 theorem: CRITICAL at `t = 0` followed by HEALTHY
at `t = 2 < 3 = fallback_delay` leaves the demo controller out of
fallback, with no timer and the LIVE scene still up. -/
theorem obs_fallback_cancelled_within_delay_witness :
    ((obsDemoController.step 0 StreamState.critical).step 2
        StreamState.healthy).fallback_deadline = none
    ∧ ((obsDemoController.step 0 StreamState.critical).step 2
        StreamState.healthy).in_fallback = false
    ∧ ((obsDemoController.step 0 StreamState.critical).step 2
        StreamState.healthy).current_scene = obsDemoController.current_scene :=
  obs_fallback_cancelled_within_delay obsDemoController 0 2
    StreamState.critical StreamState.healthy rfl rfl rfl (Or.inl rfl)
    (Or.inl rfl) (by norm_num) (by norm_num [obsDemoController])

/-! ## Child-process supervision (ratonet/server/relay.py `RTMPRelay`,
ratonet/server/srt_receiver.py `SRTLAReceiver`) -/

/-- Supervision-relevant state of an `RTMPRelay`.  `proc_exited` models
`self._process.returncode is not None`. -/
structure RTMPRelay where
  running : Bool
  active : Bool
  restart_count : Nat
  proc_exited : Bool
deriving DecidableEq, Repr

/-- One iteration of `RTMPRelay._health_monitor` after its 3 s sleep:
on an unclean exit, bump the restart counter; beyond the cap of 10 stop
supervising (note: `self.active` is left as it was); otherwise set
`active = False`, wait 2 s and `_launch` again (which sets
`active = True` with a fresh process). -/
def RTMPRelay.monitorCycle (r : RTMPRelay) : RTMPRelay :=
  if r.proc_exited = true ∧ r.running = true then
    if r.running = false then r
    else
      let rc := r.restart_count + 1
      if 10 < rc then { r with running := false, restart_count := rc }
      else
        { r with
          restart_count := rc
          active := true
          proc_exited := false }
  else r

/-- The `active` entry of `RTMPRelay.get_status`. -/
def RTMPRelay.statusActive (r : RTMPRelay) : Bool := r.active

/-- Supervision-relevant state of an `SRTLAReceiver` (the restart
counter is a local of `_monitor`, threaded separately). -/
structure SRTLAReceiver where
  running : Bool
  active : Bool
  proc_exited : Bool
deriving DecidableEq, Repr

/-- One iteration of `SRTLAReceiver._monitor` after its 3 s sleep, with
the loop-local `restart_count`.  On an unclean exit beyond the cap the
receiver sets `_running = False` and `active = False`; below the cap it
sets `active = False`, waits 2 s, and calls `start()` again
(`start_ok` tells whether the `srtla_rec` binary was found, in which
case `start` re-marks the receiver running and active). -/
def SRTLAReceiver.monitorCycle (r : SRTLAReceiver) (restart_count : Nat)
    (start_ok : Bool) : SRTLAReceiver × Nat :=
  if r.proc_exited = true ∧ r.running = true then
    if r.running = false then (r, restart_count)
    else
      let rc := restart_count + 1
      if 10 < rc then ({ r with running := false, active := false }, rc)
      else if start_ok then
        (⟨true, true, false⟩, rc)
      else ({ r with active := false }, rc)
  else (r, restart_count)

/-- The `active` entry of `SRTLAReceiver.get_status`. -/
def SRTLAReceiver.statusActive (r : SRTLAReceiver) : Bool := r.active

/-- C7, evaluated at the failing input: when an RTMP relay's child dies
for the 11th time (`restart_count = 10`), the supervisor does stop
restarting (`running = False`), but — contradicting both the
specification and the sibling SRTLA supervisor, which marks itself
inactive on the same path — it leaves `active = True`, so `get_status`
keeps reporting the dead relay as active.  Below the cap an unclean
exit does relaunch, and the SRTLA receiver beyond the cap ends with
`active = False`, as the claim says. -/
theorem rtmpRelay_cap_leaves_active_true :
    (RTMPRelay.monitorCycle ⟨true, true, 10, true⟩ =
        ⟨false, true, 11, true⟩
      ∧ (RTMPRelay.monitorCycle ⟨true, true, 10, true⟩).statusActive = true)
    ∧ RTMPRelay.monitorCycle ⟨true, true, 9, true⟩ = ⟨true, true, 10, false⟩
    ∧ (SRTLAReceiver.monitorCycle ⟨true, true, true⟩ 10 true =
        (⟨false, false, true⟩, 11)
      ∧ ((SRTLAReceiver.monitorCycle ⟨true, true, true⟩ 10
            true).1).statusActive = false) := by
  decide

/-! ## RTMP stream-key masking (ratonet/server/relay.py `_launch`,
ratonet/dashboard/routes.py `_mask_rtmp_url`)

Python strings are `List Char` here; `pySplit`/`pyJoin` are
`str.split(sep)` / `sep.join` for a one-character separator. -/

/-- `s.split(sep)` for a single-character separator. -/
def pySplit (sep : Char) : List Char → List (List Char)
  | [] => [[]]
  | c :: rest =>
    if c = sep then [] :: pySplit sep rest
    else
      match pySplit sep rest with
      | [] => [[c]]
      | seg :: segs => (c :: seg) :: segs

/-- `sep.join(xs)` for a one-character separator. -/
def pyJoin (sep : Char) : List (List Char) → List Char
  | [] => []
  | [x] => x
  | x :: y :: rest => x ++ sep :: pyJoin sep (y :: rest)

theorem pySplit_ne_nil (sep : Char) (s : List Char) : pySplit sep s ≠ [] := by
  cases s with
  | nil => simp [pySplit]
  | cons c rest =>
    unfold pySplit
    by_cases h : c = sep
    · simp [h]
    · simp only [h, if_false]
      cases pySplit sep rest <;> simp

theorem sep_not_mem_pySplit (sep : Char) (s : List Char) :
    ∀ seg ∈ pySplit sep s, sep ∉ seg := by
  induction s with
  | nil =>
    intro seg hseg
    simp [pySplit] at hseg
    simp [hseg]
  | cons c rest ih =>
    intro seg hseg
    unfold pySplit at hseg
    by_cases h : c = sep
    · simp only [h, if_pos rfl] at hseg
      rcases List.mem_cons.1 hseg with rfl | hmem
      · simp
      · exact ih seg hmem
    · simp only [h, if_false] at hseg
      cases hsp : pySplit sep rest with
      | nil => exact absurd hsp (pySplit_ne_nil sep rest)
      | cons s0 ss =>
        rw [hsp] at hseg
        rcases List.mem_cons.1 hseg with rfl | hmem
        · intro hc
          rcases List.mem_cons.1 hc with rfl | hc0
          · exact h rfl
          · exact ih s0 (hsp ▸ List.mem_cons_self s0 ss) hc0
        · exact ih seg (hsp ▸ List.mem_cons_of_mem s0 hmem)

theorem pySplit_cons_ne {sep c : Char} (h : c ≠ sep) (rest : List Char) :
    pySplit sep (c :: rest) =
      match pySplit sep rest with
      | [] => [[c]]
      | seg :: segs => (c :: seg) :: segs := by
  rw [pySplit.eq_def]
  dsimp only
  rw [if_neg h]

theorem pySplit_sepFree {sep : Char} {s : List Char} (h : sep ∉ s) :
    pySplit sep s = [s] := by
  induction s with
  | nil => rfl
  | cons c rest ih =>
    have hc : c ≠ sep := fun hc => h (hc ▸ List.mem_cons_self c rest)
    have hrest : sep ∉ rest := fun hr => h (List.mem_cons_of_mem c hr)
    rw [pySplit_cons_ne hc, ih hrest]

theorem pySplit_append_sep {sep : Char} {x : List Char} (t : List Char)
    (h : sep ∉ x) : pySplit sep (x ++ sep :: t) = x :: pySplit sep t := by
  induction x with
  | nil =>
    show pySplit sep (sep :: t) = [] :: pySplit sep t
    rw [pySplit.eq_def]
    dsimp only
    rw [if_pos rfl]
  | cons c x ih =>
    have hc : c ≠ sep := fun hc => h (hc ▸ List.mem_cons_self c x)
    have hx : sep ∉ x := fun hr => h (List.mem_cons_of_mem c hr)
    rw [List.cons_append, pySplit_cons_ne hc, ih hx]

theorem pySplit_pyJoin {sep : Char} {xs : List (List Char)}
    (hfree : ∀ seg ∈ xs, sep ∉ seg) (hne : xs ≠ []) :
    pySplit sep (pyJoin sep xs) = xs := by
  induction xs with
  | nil => exact absurd rfl hne
  | cons x rest ih =>
    cases rest with
    | nil =>
      show pySplit sep (pyJoin sep [x]) = [x]
      exact pySplit_sepFree (hfree x (List.mem_cons_self x []))
    | cons y rest2 =>
      show pySplit sep (x ++ sep :: pyJoin sep (y :: rest2)) = x :: y :: rest2
      rw [pySplit_append_sep _ (hfree x (List.mem_cons_self x _))]
      rw [ih (fun seg hseg => hfree seg (List.mem_cons_of_mem x hseg))
        (by simp)]

/-- The logging line of `RTMPRelay._launch`: `split("/")`, overwrite
the last element with `"***"`, join back. -/
def relayMaskUrl (url : List Char) : List Char :=
  pyJoin '/' ((pySplit '/' url).dropLast ++ [['*', '*', '*']])

/-- `url.rsplit("/", 1)`. -/
def pyRsplit1 (sep : Char) (s : List Char) : List (List Char) :=
  if (pySplit sep s).length ≤ 1 then [s]
  else [pyJoin sep (pySplit sep s).dropLast, (pySplit sep s).getLastD []]

/-- `_mask_rtmp_url` of ratonet/dashboard/routes.py: keep the first 4
characters of a final segment longer than 4 characters and append
`***`; anything else is returned verbatim. -/
def maskRtmpUrl (url : List Char) : List Char :=
  match pyRsplit1 '/' url with
  | [pre, key] =>
      if 4 < key.length then pre ++ '/' :: (key.take 4 ++ ['*', '*', '*'])
      else url
  | _ => url

/-- C8 counterexample: the relay logs
`rtmp://example/app/key` — whose final segment `key` has only 3 ≤ 4
characters — as `rtmp://example/app/***`, not verbatim as the claim
requires. -/
theorem relayMask_masks_short_key :
    relayMaskUrl ("rtmp://example/app/key".toList) =
        ("rtmp://example/app/***".toList)
    ∧ relayMaskUrl ("rtmp://example/app/key".toList) ≠
        ("rtmp://example/app/key".toList)
    ∧ ("key".toList).length ≤ 4 := by
  decide

/-- C8 (amended): the relay's log line replaces the final `/`-segment
of the RTMP URL with `***` unconditionally, whatever its length, while
the dashboard helper `_mask_rtmp_url` (used for REST responses, not
logs) returns a URL verbatim when it has no `/` or its final segment is
at most 4 characters, and otherwise keeps the first 4 characters of the
final segment and appends `***`. -/
theorem maskUrl_spec (url : List Char) :
    pySplit '/' (relayMaskUrl url) =
      (pySplit '/' url).dropLast ++ [['*', '*', '*']]
    ∧ ((pySplit '/' url).length ≤ 1 ∨
          ((pySplit '/' url).getLastD []).length ≤ 4 →
        maskRtmpUrl url = url)
    ∧ (2 ≤ (pySplit '/' url).length →
        4 < ((pySplit '/' url).getLastD []).length →
        maskRtmpUrl url =
          pyJoin '/' (pySplit '/' url).dropLast ++
            '/' :: (((pySplit '/' url).getLastD []).take 4 ++
              ['*', '*', '*'])) := by
  refine ⟨?_, ?_, ?_⟩
  · unfold relayMaskUrl
    apply pySplit_pyJoin
    · intro seg hseg
      rcases List.mem_append.1 hseg with hmem | hmem
      · exact sep_not_mem_pySplit '/' url seg (List.dropLast_sublist _ |>.mem hmem)
      · simp at hmem
        simp [hmem]
    · simp
  · intro hcase
    unfold maskRtmpUrl pyRsplit1
    rcases le_or_lt (pySplit '/' url).length 1 with hle | hgt
    · rw [if_pos hle]
    · have h1 : ¬((pySplit '/' url).length ≤ 1) := not_le.2 hgt
      rw [if_neg h1]
      have hkey : ¬(4 < ((pySplit '/' url).getLastD []).length) := by
        rcases hcase with hc | hc
        · omega
        · omega
      show (if 4 < ((pySplit '/' url).getLastD []).length
          then pyJoin '/' (pySplit '/' url).dropLast ++
            '/' :: (((pySplit '/' url).getLastD []).take 4 ++ ['*', '*', '*'])
          else url) = url
      exact if_neg hkey
  · intro hlen hkey
    unfold maskRtmpUrl pyRsplit1
    have h1 : ¬((pySplit '/' url).length ≤ 1) := by omega
    rw [if_neg h1]
    show (if 4 < ((pySplit '/' url).getLastD []).length
        then pyJoin '/' (pySplit '/' url).dropLast ++
          '/' :: (((pySplit '/' url).getLastD []).take 4 ++ ['*', '*', '*'])
        else url) = _
    exact if_pos hkey

/-- Witness for the C8 theorem: `_mask_rtmp_url` returns
`rtmp://x/ab` (final segment of 2 characters) verbatim. -/
theorem maskUrl_spec_witness :
    maskRtmpUrl ("rtmp://x/ab".toList) = ("rtmp://x/ab".toList) :=
  (maskUrl_spec ("rtmp://x/ab".toList)).2.1 (by decide)

/-! ## Dashboard data model (ratonet/dashboard/models.py) and the
field-message protocol (ratonet/common/protocol.py) -/

/-- `HealthState` enum of models.py. -/
inductive HealthState
  | healthy
  | degraded
  | critical
  | down
deriving DecidableEq, Repr

/-- `GPSPosition`: `lat`/`lng` are required, the rest default. -/
structure GPSPosition where
  lat : ℚ
  lng : ℚ
  speed_kmh : ℚ
  altitude_m : ℚ
  heading : ℚ
  satellites : Int
  fix : String
deriving DecidableEq, Repr

/-- `HardwareMetrics` (all fields defaulted). -/
structure HardwareMetrics where
  cpu_percent : ℚ
  cpu_temp_c : ℚ
  ram_percent : ℚ
  disk_percent : ℚ
  battery_percent : Option ℚ
  battery_charging : Bool
deriving DecidableEq, Repr

/-- `NetworkLink`: `interface` is required, the rest default. -/
structure NetworkLink where
  interface : String
  type : String
  connected : Bool
  rtt_ms : ℚ
  jitter_ms : ℚ
  packet_loss_pct : ℚ
  bandwidth_mbps : ℚ
  score : Int
deriving DecidableEq, Repr

/-- `StarlinkMetrics` (all fields defaulted). -/
structure StarlinkMetrics where
  connected : Bool
  latency_ms : ℚ
  download_mbps : ℚ
  upload_mbps : ℚ
  obstruction_pct : ℚ
  uptime_s : Int
deriving DecidableEq, Repr

/-- `HealthStatus` (all fields defaulted). -/
structure HealthStatus where
  score : Int
  state : HealthState
  active_links : Int
  total_links : Int
  bitrate_kbps : ℚ
  message : String
deriving DecidableEq, Repr

/-- The live snapshot `Streamer` of models.py; `updated_at` is the
wall-clock instant of the last mutation. -/
structure Streamer where
  id : String
  name : String
  avatar_url : String
  color : String
  is_crown : Bool
  is_live : Bool
  socials : List String
  gps : GPSPosition
  hardware : HardwareMetrics
  network_links : List NetworkLink
  starlink : StarlinkMetrics
  health : HealthStatus
  updated_at : ℚ
deriving DecidableEq, Repr

/-- JSON values carried in the `data` field of a protocol message. -/
inductive Json where
  | null
  | bool (b : Bool)
  | num (q : ℚ)
  | str (s : String)
  | arr (elems : List Json)
  | obj (fields : List (String × Json))

/-- A defaulted numeric model field: absent means the default, a
number is accepted, anything else is a validation error. -/
def jsonNumField (d : List (String × Json)) (k : String) (dflt : ℚ) :
    Option ℚ :=
  match dictLookup d k with
  | none => some dflt
  | some (Json.num q) => some q
  | some _ => none

/-- A required numeric model field. -/
def jsonReqNumField (d : List (String × Json)) (k : String) : Option ℚ :=
  match dictLookup d k with
  | some (Json.num q) => some q
  | _ => none

/-- A defaulted integer model field (an integral number is accepted). -/
def jsonIntField (d : List (String × Json)) (k : String) (dflt : Int) :
    Option Int :=
  match dictLookup d k with
  | none => some dflt
  | some (Json.num q) => if q.den = 1 then some q.num else none
  | some _ => none

/-- A defaulted boolean model field. -/
def jsonBoolField (d : List (String × Json)) (k : String) (dflt : Bool) :
    Option Bool :=
  match dictLookup d k with
  | none => some dflt
  | some (Json.bool b) => some b
  | some _ => none

/-- A defaulted string model field. -/
def jsonStrField (d : List (String × Json)) (k : String) (dflt : String) :
    Option String :=
  match dictLookup d k with
  | none => some dflt
  | some (Json.str s) => some s
  | some _ => none

/-- A defaulted `Optional[float]` model field (`None` is legal). -/
def jsonOptNumField (d : List (String × Json)) (k : String) :
    Option (Option ℚ) :=
  match dictLookup d k with
  | none => some none
  | some Json.null => some none
  | some (Json.num q) => some (some q)
  | some _ => none

/-- A required string model field. -/
def jsonReqStrField (d : List (String × Json)) (k : String) : Option String :=
  match dictLookup d k with
  | some (Json.str s) => some s
  | _ => none

def HealthState.fromString : String → Option HealthState
  | "healthy" => some HealthState.healthy
  | "degraded" => some HealthState.degraded
  | "critical" => some HealthState.critical
  | "down" => some HealthState.down
  | _ => none

/-- `GPSPosition(**msg.data)`: `none` models a pydantic
`ValidationError` being raised. -/
def GPSPosition.fromJson (d : List (String × Json)) : Option GPSPosition := do
  let lat ← jsonReqNumField d "lat"
  let lng ← jsonReqNumField d "lng"
  let speed ← jsonNumField d "speed_kmh" 0
  let alt ← jsonNumField d "altitude_m" 0
  let heading ← jsonNumField d "heading" 0
  let sats ← jsonIntField d "satellites" 0
  let fix ← jsonStrField d "fix" "none"
  pure ⟨lat, lng, speed, alt, heading, sats, fix⟩

/-- `HardwareMetrics(**msg.data)`. -/
def HardwareMetrics.fromJson (d : List (String × Json)) :
    Option HardwareMetrics := do
  let cpu ← jsonNumField d "cpu_percent" 0
  let temp ← jsonNumField d "cpu_temp_c" 0
  let ram ← jsonNumField d "ram_percent" 0
  let disk ← jsonNumField d "disk_percent" 0
  let batt ← jsonOptNumField d "battery_percent"
  let charging ← jsonBoolField d "battery_charging" false
  pure ⟨cpu, temp, ram, disk, batt, charging⟩

/-- `NetworkLink(**link)`. -/
def NetworkLink.fromJson (d : List (String × Json)) : Option NetworkLink := do
  let itf ← jsonReqStrField d "interface"
  let ty ← jsonStrField d "type" "unknown"
  let conn ← jsonBoolField d "connected" false
  let rtt ← jsonNumField d "rtt_ms" 0
  let jitter ← jsonNumField d "jitter_ms" 0
  let loss ← jsonNumField d "packet_loss_pct" 0
  let bw ← jsonNumField d "bandwidth_mbps" 0
  let score ← jsonIntField d "score" 0
  pure ⟨itf, ty, conn, rtt, jitter, loss, bw, score⟩

/-- The list comprehension
`[NetworkLink(**link) for link in msg.data.get("links", [])]`. -/
def NetworkLink.listFromJson (v : Option Json) : Option (List NetworkLink) :=
  match v with
  | none => some []
  | some (Json.arr xs) =>
      xs.mapM (fun j =>
        match j with
        | Json.obj fs => NetworkLink.fromJson fs
        | _ => none)
  | some _ => none

/-- `StarlinkMetrics(**msg.data)`. -/
def StarlinkMetrics.fromJson (d : List (String × Json)) :
    Option StarlinkMetrics := do
  let conn ← jsonBoolField d "connected" false
  let lat ← jsonNumField d "latency_ms" 0
  let down ← jsonNumField d "download_mbps" 0
  let up ← jsonNumField d "upload_mbps" 0
  let obst ← jsonNumField d "obstruction_pct" 0
  let upt ← jsonIntField d "uptime_s" 0
  pure ⟨conn, lat, down, up, obst, upt⟩

/-- `HealthStatus(**msg.data)`. -/
def HealthStatus.fromJson (d : List (String × Json)) : Option HealthStatus := do
  let score ← jsonIntField d "score" 100
  let state ←
    match dictLookup d "state" with
    | none => some HealthState.healthy
    | some (Json.str s) => HealthState.fromString s
    | some _ => none
  let al ← jsonIntField d "active_links" 0
  let tl ← jsonIntField d "total_links" 0
  let br ← jsonNumField d "bitrate_kbps" 0
  let msg ← jsonStrField d "message" ""
  pure ⟨score, state, al, tl, br, msg⟩

/-- `MessageType` enum of ratonet/common/protocol.py. -/
inductive MessageType
  | gps
  | hardware
  | network
  | starlink
  | health
  | stream_status
  | command
deriving DecidableEq, Repr

/-- A successfully validated `ProtocolMessage` envelope. -/
structure ProtocolMsg where
  type : MessageType
  streamer_id : String
  timestamp : ℚ
  data : List (String × Json)

/-! ## Telemetry hub (ratonet/dashboard/ws_handler.py
`ConnectionManager`, ratonet/dashboard/main.py `ws_field`) -/

/-- An event broadcast to the dashboard subscribers
(`broadcast_to_dashboards`); the claims only need its kind and the
streamer it concerns. -/
inductive DashEvent
  | full_sync
  | streamer_online (sid : String)
  | streamer_update (sid : String)
  | streamer_offline (sid : String)
deriving DecidableEq, Repr

/-- State of the global `ConnectionManager` (WebSocket handles are
opaque numbers). -/
structure ConnectionManager where
  dashboard_clients : List Nat
  field_agents : List (String × Nat)
  streamers : List (String × Streamer)
deriving DecidableEq, Repr

/-- `ConnectionManager.connect_field` as defined at ws_handler.py
lines 76-79: accept the socket and record it in `field_agents` under
the streamer id.  It takes exactly two arguments beside `self`, builds
no snapshot, emits no event, and starts no pipeline. -/
def ConnectionManager.connect_field (m : ConnectionManager) (ws : Nat)
    (sid : String) : ConnectionManager × List DashEvent :=
  ({ m with field_agents := dictAssign m.field_agents sid ws }, [])

/-- Number of parameters after `self` in the definition of
`ConnectionManager.connect_field` (ws_handler.py line 76: `ws`,
`streamer_id`). -/
def connectFieldParamCount : Nat := 2

/-- Number of arguments `ws_field` passes to `manager.connect_field`
after a fully successful handshake (main.py line 112: `ws`,
`streamer_id`, `streamer_data`). -/
def wsFieldConnectFieldArgCount : Nat := 3

/-- `ConnectionManager.disconnect_field` (ws_handler.py lines 81-85):
pop the field socket and, when a snapshot exists, flip its `is_live`
flag in place; nothing is removed from `streamers` and nothing is
broadcast. -/
def ConnectionManager.disconnect_field (m : ConnectionManager)
    (sid : String) : ConnectionManager × List DashEvent :=
  let fa := dictPop m.field_agents sid
  let st :=
    match dictLookup m.streamers sid with
    | some s => dictSet m.streamers sid ({ s with is_live := false })
    | none => m.streamers
  ({ m with field_agents := fa, streamers := st }, [])

/-- Result of one `handle_field_message` call.  `raised = true` models
an exception escaping the handler into `ws_field`'s receive loop
(which has no handler for it, so the connection is torn down). -/
structure HandleResult where
  manager : ConnectionManager
  events : List DashEvent
  raised : Bool
deriving DecidableEq, Repr

/-- `ConnectionManager.handle_field_message` (ws_handler.py lines
87-118).  `parsed` is the outcome of
`ProtocolMessage.model_validate_json(raw)`: `Except.error` for a frame
whose envelope fails validation (malformed JSON, unknown enum value,
missing envelope field), which the `try/except` logs and discards.
With a valid envelope, the snapshot's `updated_at` is set first; a
payload constructor raising a `ValidationError` then escapes the
method with the mutation already applied and nothing broadcast. -/
def ConnectionManager.handle_field_message (m : ConnectionManager)
    (sid : String) (parsed : Except Unit ProtocolMsg) (now : ℚ) :
    HandleResult :=
  match parsed with
  | Except.error _ => ⟨m, [], false⟩
  | Except.ok msg =>
    match dictLookup m.streamers sid with
    | none => ⟨m, [], false⟩
    | some s0 =>
      let s1 := { s0 with updated_at := now }
      let commit := fun (s2 : Streamer) (evs : List DashEvent) (r : Bool) =>
        HandleResult.mk { m with streamers := dictSet m.streamers sid s2 }
          evs r
      match msg.type with
      | MessageType.gps =>
        match GPSPosition.fromJson msg.data with
        | none => commit s1 [] true
        | some g =>
            commit ({ s1 with gps := g }) [DashEvent.streamer_update sid] false
      | MessageType.hardware =>
        match HardwareMetrics.fromJson msg.data with
        | none => commit s1 [] true
        | some hw =>
            commit ({ s1 with hardware := hw })
              [DashEvent.streamer_update sid] false
      | MessageType.network =>
        match NetworkLink.listFromJson (dictLookup msg.data "links") with
        | none => commit s1 [] true
        | some ls =>
            commit ({ s1 with network_links := ls })
              [DashEvent.streamer_update sid] false
      | MessageType.starlink =>
        match StarlinkMetrics.fromJson msg.data with
        | none => commit s1 [] true
        | some sl =>
            commit ({ s1 with starlink := sl })
              [DashEvent.streamer_update sid] false
      | MessageType.health =>
        match HealthStatus.fromJson msg.data with
        | none => commit s1 [] true
        | some hs =>
            commit ({ s1 with health := hs })
              [DashEvent.streamer_update sid] false
      | MessageType.stream_status =>
          commit s1 [DashEvent.streamer_update sid] false
      | MessageType.command =>
          commit s1 [DashEvent.streamer_update sid] false

theorem dictLookup_dictSet_self {β : Type} {l : List (String × β)}
    {k : String} {v0 : β} (h : dictLookup l k = some v0) (v : β) :
    dictLookup (dictSet l k v) k = some v := by
  induction l with
  | nil => simp [dictLookup] at h
  | cons e rest ih =>
    by_cases he : e.1 = k
    · simp [dictLookup, dictSet, he]
    · simp [dictLookup, dictSet, he] at h ⊢
      exact ih h

/-- C1, evaluated against the source: `connect_field` as defined in
ws_handler.py stores the socket and nothing else — it emits no
`streamer_online` event and leaves the live-streamer map untouched —
and it declares two parameters beside `self` although the successful
handshake in `ws_field` (main.py line 112) calls it with three
arguments, so the call raises `TypeError` before any of the claimed
effects could happen. -/
theorem connect_field_does_not_match_claim (m : ConnectionManager)
    (ws : Nat) (sid : String) :
    (m.connect_field ws sid).2 = []
    ∧ (m.connect_field ws sid).1.streamers = m.streamers
    ∧ (m.connect_field ws sid).1.dashboard_clients = m.dashboard_clients
    ∧ wsFieldConnectFieldArgCount ≠ connectFieldParamCount :=
  ⟨rfl, rfl, rfl, by decide⟩

/-- A concrete live snapshot used by the hub counterexamples. -/
def demoStreamer : Streamer :=
  { id := "s1"
    name := "Alice"
    avatar_url := ""
    color := "#ff6600"
    is_crown := false
    is_live := true
    socials := []
    gps := ⟨0, 0, 0, 0, 0, 0, "none"⟩
    hardware := ⟨0, 0, 0, 0, none, false⟩
    network_links := []
    starlink := ⟨false, 0, 0, 0, 0, 0⟩
    health := ⟨100, HealthState.healthy, 0, 0, 0, ""⟩
    updated_at := 0 }

/-- A hub with one dashboard subscriber, one connected field agent
`"s1"` and its live snapshot. -/
def demoManager : ConnectionManager :=
  ⟨[7], [("s1", 42)], [("s1", demoStreamer)]⟩

/-- C2 counterexample: disconnecting field agent `"s1"` leaves its
snapshot in the live-streamer map (merely flagged `is_live = false`)
and broadcasts nothing — no `streamer_offline` event — contradicting
the claimed removal, pipeline stop and broadcast. -/
theorem disconnect_field_keeps_snapshot :
    dictLookup (demoManager.disconnect_field "s1").1.streamers "s1" =
        some { demoStreamer with is_live := false }
    ∧ dictLookup (demoManager.disconnect_field "s1").1.streamers "s1" ≠ none
    ∧ (demoManager.disconnect_field "s1").2 = [] := by
  decide

/-- C2 (amended): handling a field disconnect removes the agent from
the field-connection map and, when a snapshot exists, marks it
`is_live = false` in place — the snapshot stays in the live-streamer
map — while no event is broadcast (and the manager holds no pipelines
or ports to release). -/
theorem disconnect_field_spec (m : ConnectionManager) (sid : String) :
    (m.disconnect_field sid).2 = []
    ∧ dictLookup (m.disconnect_field sid).1.field_agents sid = none
    ∧ (∀ s, dictLookup m.streamers sid = some s →
        dictLookup (m.disconnect_field sid).1.streamers sid =
          some { s with is_live := false })
    ∧ (dictLookup m.streamers sid = none →
        (m.disconnect_field sid).1.streamers = m.streamers) := by
  refine ⟨rfl, ?_, fun s hs => ?_, fun hn => ?_⟩
  · show dictLookup (dictPop m.field_agents sid) sid = none
    exact dictLookup_dictPop_self m.field_agents sid
  · show dictLookup
        (match dictLookup m.streamers sid with
          | some s => dictSet m.streamers sid ({ s with is_live := false })
          | none => m.streamers) sid = some { s with is_live := false }
    rw [hs]
    exact dictLookup_dictSet_self hs _
  · show (match dictLookup m.streamers sid with
        | some s => dictSet m.streamers sid ({ s with is_live := false })
        | none => m.streamers) = m.streamers
    rw [hn]

/-- Witness for the C2 theorem: disconnecting `"s1"` from the demo hub
clears its field socket yet keeps its (now not-live) snapshot. -/
theorem disconnect_field_spec_witness :
    dictLookup (demoManager.disconnect_field "s1").1.field_agents "s1" = none
    ∧ dictLookup (demoManager.disconnect_field "s1").1.streamers "s1" =
        some { demoStreamer with is_live := false } :=
  ⟨(disconnect_field_spec demoManager "s1").2.1,
    (disconnect_field_spec demoManager "s1").2.2.1 demoStreamer (by decide)⟩

/-- A frame with a well-formed envelope of type `gps` whose payload is
missing the required `lat`/`lng` fields, so
`GPSPosition(**msg.data)` raises. -/
def invalidGpsMsg : ProtocolMsg :=
  ⟨MessageType.gps, "s1", 0, []⟩

/-- C9 counterexample: the `gps` frame with an empty payload passes the
envelope parse, so the handler first stamps `updated_at := now` and
only then raises from `GPSPosition(**msg.data)`: the snapshot is
changed, and the error escapes `handle_field_message` into the
`ws_field` receive loop instead of being logged and dropped. -/
theorem handle_field_message_payload_error_escapes :
    (demoManager.handle_field_message "s1" (Except.ok invalidGpsMsg)
        5).raised = true
    ∧ ((dictLookup (demoManager.handle_field_message "s1"
          (Except.ok invalidGpsMsg) 5).manager.streamers "s1").map
        (fun s => s.updated_at)) = some 5
    ∧ demoStreamer.updated_at ≠ 5
    ∧ (demoManager.handle_field_message "s1" (Except.ok invalidGpsMsg)
        5).events = [] := by
  decide

/-- Whether the per-type payload constructor that
`handle_field_message` runs for this message raises a validation
error (the `stream_status` and `command` arms construct no payload and
cannot raise). -/
def payloadRaises (msg : ProtocolMsg) : Bool :=
  match msg.type with
  | MessageType.gps => (GPSPosition.fromJson msg.data).isNone
  | MessageType.hardware => (HardwareMetrics.fromJson msg.data).isNone
  | MessageType.network =>
      (NetworkLink.listFromJson (dictLookup msg.data "links")).isNone
  | MessageType.starlink => (StarlinkMetrics.fromJson msg.data).isNone
  | MessageType.health => (HealthStatus.fromJson msg.data).isNone
  | MessageType.stream_status => false
  | MessageType.command => false

/-- C9 (amended): a frame whose *envelope* fails validation (malformed
JSON or a bad enum) is logged and discarded — the hub state, including
`updated_at`, is unchanged, nothing is broadcast, nothing is raised —
but any frame with a valid envelope whose *payload* fails validation
(whichever of the five payload kinds it carries) first sets the
snapshot's `updated_at` to now and then lets the validation error
propagate out of the handler, with no broadcast. -/
theorem handle_field_message_spec (m : ConnectionManager) (sid : String)
    (now : ℚ) :
    m.handle_field_message sid (Except.error ()) now = ⟨m, [], false⟩
    ∧ (∀ msg s, dictLookup m.streamers sid = some s →
        payloadRaises msg = true →
        m.handle_field_message sid (Except.ok msg) now =
          ⟨{ m with
              streamers := dictSet m.streamers sid
                ({ s with updated_at := now }) }, [], true⟩) := by
  refine ⟨rfl, fun msg s hs hval => ?_⟩
  obtain ⟨ty, msid, ts, d⟩ := msg
  unfold ConnectionManager.handle_field_message
  rw [hs]
  cases ty with
  | gps =>
    simp only [payloadRaises, Option.isNone_iff_eq_none] at hval
    dsimp only
    rw [hval]
  | hardware =>
    simp only [payloadRaises, Option.isNone_iff_eq_none] at hval
    dsimp only
    rw [hval]
  | network =>
    simp only [payloadRaises, Option.isNone_iff_eq_none] at hval
    dsimp only
    rw [hval]
  | starlink =>
    simp only [payloadRaises, Option.isNone_iff_eq_none] at hval
    dsimp only
    rw [hval]
  | health =>
    simp only [payloadRaises, Option.isNone_iff_eq_none] at hval
    dsimp only
    rw [hval]
  | stream_status => simp [payloadRaises] at hval
  | command => simp [payloadRaises] at hval

/-- Witness for the C9 theorem: on the demo hub, an envelope-invalid
frame leaves everything untouched, and the empty-payload `gps` frame
raises after stamping `updated_at`. -/
theorem handle_field_message_spec_witness :
    demoManager.handle_field_message "s1" (Except.error ()) 5 =
        ⟨demoManager, [], false⟩
    ∧ demoManager.handle_field_message "s1" (Except.ok invalidGpsMsg) 5 =
        ⟨{ demoManager with
            streamers := dictSet demoManager.streamers "s1"
              ({ demoStreamer with updated_at := 5 }) }, [], true⟩ :=
  ⟨(handle_field_message_spec demoManager "s1" 5).1,
    (handle_field_message_spec demoManager "s1" 5).2 invalidGpsMsg
      demoStreamer (by decide) rfl⟩

end RatoNet
